import Mathlib

/-!
Verification of the ferrous-sysmet metrics store and derivation layer.

Shallow embedding of the Rust sources:
  - src/lib/metrics/src/snapshot.rs   (SnapShot data shape and accessor functions)
  - src/lib/metrics/src/database.rs   (Database: lock protocol, load, persist, retention,
                                       derivation of chartable series)
  - src/services/metrics/src/snapshot.rs (older variant of SnapShot::new, kept in the
                                       repository, whose network-interface filter is inverted)

Modelling conventions:
  - floating point fields (f32/f64 in the source) are modelled as rationals;
  - byte counters (u64) are modelled as Nat;
  - a chrono DateTime of Utc is modelled as an integer count of milliseconds since
    the Unix epoch, representable only inside a bounded window (chrono has a bounded
    date range);
  - the serialized file is modelled as a list of natural number tokens;
  - fallible operations return Except or Option.
-/

namespace Sysmet

/-- Decidable equality for Except, needed to evaluate results of fallible
operations on concrete inputs. -/
instance {ε α : Type} [DecidableEq ε] [DecidableEq α] : DecidableEq (Except ε α)
  | .error a, .error b =>
    if h : a = b then .isTrue (by rw [h]) else .isFalse (by intro hc; cases hc; exact h rfl)
  | .error _, .ok _ => .isFalse (by intro hc; cases hc)
  | .ok _, .error _ => .isFalse (by intro hc; cases hc)
  | .ok a, .ok b =>
    if h : a = b then .isTrue (by rw [h]) else .isFalse (by intro hc; cases hc; exact h rfl)

/-- Modelled from the spec (the psutil crate is external to the repository): one
per-core CPU reading carries a busy time and a total time in seconds; the source
only ever consumes a core reading through its busy() and total() accessors. -/
structure CpuTimes where
  busy : ℚ
  total : ℚ
deriving DecidableEq

/-- Modelled from the spec: RAM counters, consumed through total() and percent(). -/
structure VirtualMemory where
  total : Nat
  percent : ℚ
deriving DecidableEq

/-- Modelled from the spec: swap counters, consumed through total() and percent(). -/
structure SwapMemory where
  total : Nat
  percent : ℚ
deriving DecidableEq

/-- Modelled from the spec: cumulative per-interface byte counters at capture time. -/
structure NetIoCounters where
  bytes_recv : Nat
  bytes_sent : Nat
deriving DecidableEq

/-- Modelled from the spec: cumulative per-partition I/O byte counters. -/
structure DiskIoCounters where
  read_bytes : Nat
  write_bytes : Nat
deriving DecidableEq

/-- Modelled from the spec: one temperature sensor reading, label to degrees. -/
structure TemperatureSensor where
  label : String
  degrees : ℚ
deriving DecidableEq

/-- From src/services/metrics/src/psutil.rs: run-queue lengths averaged over
1, 5 and 15 minutes. -/
structure LoadAvg where
  one : ℚ
  five : ℚ
  fifteen : ℚ
deriving DecidableEq

/-- From src/lib/metrics/src/snapshot.rs: the SnapShot record. The two HashMap
fields are modelled as association lists (iteration order fixed by the list). -/
structure SnapShot where
  cpus : List CpuTimes
  memory : VirtualMemory
  swap : SwapMemory
  networks : List NetIoCounters
  disks_io : List (String × DiskIoCounters)
  disks_memory : List (String × ℚ)
  temps : List TemperatureSensor
  load_avgs : LoadAvg
  time : Int
deriving DecidableEq

/-- From src/lib/metrics/src/database.rs: the Database record (the store). -/
structure Database where
  version : String
  snapshots : List SnapShot
deriving DecidableEq

/-- From SnapShot::get_cpu_count. -/
def SnapShot.get_cpu_count (s : SnapShot) : Nat :=
  s.cpus.length

/-- From SnapShot::get_cpu_time: fold over all cores summing busy and total time. -/
def SnapShot.get_cpu_time (s : SnapShot) : ℚ × ℚ :=
  s.cpus.foldl (fun p cpu => (p.1 + cpu.busy, p.2 + cpu.total)) (0, 0)

/-- From SnapShot::get_ram_usage. -/
def SnapShot.get_ram_usage (s : SnapShot) : ℚ × ℚ :=
  (s.memory.percent, s.swap.percent)

/-- From SnapShot::get_load. -/
def SnapShot.get_load (s : SnapShot) : ℚ × ℚ × ℚ :=
  (s.load_avgs.one, s.load_avgs.five, s.load_avgs.fifteen)

/-- From SnapShot::get_network_usage: fold over interfaces summing received and
sent bytes. -/
def SnapShot.get_network_usage (s : SnapShot) : ℚ × ℚ :=
  s.networks.foldl (fun p net => (p.1 + (net.bytes_recv : ℚ), p.2 + (net.bytes_sent : ℚ))) (0, 0)

/-- From SnapShot::get_disk_speed_usage: fold over partitions summing read and
written bytes. -/
def SnapShot.get_disk_speed_usage (s : SnapShot) : Nat × Nat :=
  s.disks_io.foldl (fun p kv => (p.1 + kv.2.read_bytes, p.2 + kv.2.write_bytes)) (0, 0)

/-- From SnapShot::get_disks_size_usage: per-partition (mountpoint, used-percent)
pairs, the f32 percent widened to f64 in the source (identity here). -/
def SnapShot.get_disks_size_usage (s : SnapShot) : List (String × ℚ) :=
  s.disks_memory.map (fun kv => (kv.1, kv.2))

/-- From the network-interface filter inside SnapShot::new in
src/lib/metrics/src/snapshot.rs: keep the counters of every interface whose
name is NOT in the ignore list (the OS-level pernic map is the input). -/
def collect_networks (networks_to_ignore : List String)
    (pernic : List (String × NetIoCounters)) : List NetIoCounters :=
  pernic.filterMap (fun kv => if networks_to_ignore.contains kv.1 then none else some kv.2)

/-- From the network-interface filter inside SnapShot::new in
src/services/metrics/src/snapshot.rs (older variant kept in the repository):
keep the counters of every interface whose name IS in the ignore list. -/
def collect_networks_services (networks_to_ignore : List String)
    (pernic : List (String × NetIoCounters)) : List NetIoCounters :=
  pernic.filterMap (fun kv => if networks_to_ignore.contains kv.1 then some kv.2 else none)

/-- From Database::get_cpu_usage: per snapshot, busy time over total time times
100, paired with the capture timestamp, in sequence order. -/
def Database.get_cpu_usage (db : Database) : List (ℚ × Int) :=
  let cpus_times := db.snapshots.map (fun s => (s.get_cpu_time, s.time))
  cpus_times.map (fun p => (p.1.1 / p.1.2 * 100, p.2))

/-- From Database::get_disk_memory_usage: per snapshot, fold the per-partition
used-percent values into a sum, then apply the to_mib conversion (divide by
1024 twice) to that sum, paired with the capture timestamp. -/
def Database.get_disk_memory_usage (db : Database) : List (ℚ × Int) :=
  db.snapshots.map (fun s =>
    let usage := s.get_disks_size_usage.foldl (fun sum kv => sum + kv.2) 0
    (usage / 1024 / 1024, s.time))

/-- Milliseconds per day, the unit conversion inside chrono Duration::days. -/
def millisPerDay : Int := 86400000

/-- Modelled from the spec (the chrono crate is external to the repository):
chrono Duration spans at most i64::MAX milliseconds in either direction;
Duration::days panics (aborts the process) outside that range. -/
def durationMsBound : Int := 9223372036854775807

/-- Modelled from the spec: chrono DateTime of Utc covers a bounded window of
about plus or minus 262000 years around the epoch; checked_sub_signed returns
None when the result leaves the window. The exact bound does not matter for the
claims below, only that it is far smaller than durationMsBound; the constant
approximates the real chrono window in milliseconds. -/
def dateTimeMsBound : Int := 8270000000000000

/-- Modelled from the spec: chrono Duration::days, returning the duration in
milliseconds, or none where the real function panics (out of Duration range). -/
def chronoDurationDaysMs (days : Int) : Option Int :=
  let ms := days * millisPerDay
  if ms < -durationMsBound ∨ durationMsBound < ms then none else some ms

/-- Modelled from the spec: chrono checked_sub_signed on a DateTime, in
milliseconds; none when the result is not representable. -/
def checked_sub_signed (t ms : Int) : Option Int :=
  let r := t - ms
  if r < -dateTimeMsBound ∨ dateTimeMsBound < r then none else some r

/-- Error outcomes of store operations, from src/services/metrics/src/errors.rs.
The durationDaysPanic constructor is not a variant of the source enum: it marks
the process abort raised by chrono Duration::days outside its range, so that a
panic is distinguishable from a returned error in the model. -/
inductive DbError where
  | invalidPath
  | failedToOpenFile
  | failedToGetFileMetadata
  | failedToWriteFile
  | failedToSetFileCursor
  | failedToRemoveFile
  | lockFileTimeout
  | semVer
  | cborDeserialize
  | cborSerialize
  | oldestDateOverflow
  | durationDaysPanic
deriving DecidableEq

/-- From Database::remove_older: oldest_date = now - days (checked); keep
exactly the snapshots whose time is strictly greater than oldest_date. The
current instant is passed explicitly as milliseconds since the epoch. -/
def Database.remove_older (now days : Int) (db : Database) : Except DbError Database :=
  match chronoDurationDaysMs days with
  | none => .error .durationDaysPanic
  | some ms =>
    match checked_sub_signed now ms with
    | none => .error .oldestDateOverflow
    | some oldest_date =>
      .ok (Database.mk db.version (db.snapshots.filter (fun snap => decide (oldest_date < snap.time))))

/-- Database::remove_older takes self by mutable reference: on an error the
store is left untouched. This wrapper makes that state-passing explicit. -/
def Database.remove_older_run (now days : Int) (db : Database) : Option DbError × Database :=
  match db.remove_older now days with
  | .error e => (some e, db)
  | .ok db2 => (none, db2)

/-!
Serialization. Modelled from the spec (the ciborium crate is external to the
repository): the file holds one single self-describing binary-encoded value
version plus ordered snapshot list; the decoder reads exactly one value from
the stream and leaves any trailing bytes unread, as ciborium de::from_reader
does. The byte stream is modelled as a list of natural number tokens; every
encoder is self-delimiting, every reader returns the decoded value together
with the unread remainder of the stream.
-/

/-- Write one natural number token. -/
def writeNat (n : Nat) : List Nat := [n]

/-- Read one natural number token. -/
def readNat : List Nat → Option (Nat × List Nat)
  | [] => none
  | n :: rest => some (n, rest)

/-- Write an integer as a sign token followed by its absolute value. -/
def writeInt (i : Int) : List Nat :=
  [if i < 0 then 1 else 0, i.natAbs]

/-- Read an integer written by writeInt. -/
def readInt : List Nat → Option (Int × List Nat)
  | s :: n :: rest => if s = 0 then some ((n : Int), rest) else some (-(n : Int), rest)
  | _ => none

/-- Write a rational as numerator then denominator. -/
def writeRat (q : ℚ) : List Nat :=
  writeInt q.num ++ writeNat q.den

/-- Read a rational written by writeRat. -/
def readRat (s : List Nat) : Option (ℚ × List Nat) :=
  match readInt s with
  | none => none
  | some (n, s1) =>
    match readNat s1 with
    | none => none
    | some (d, s2) => some ((n : ℚ) / (d : ℚ), s2)

/-- Write a character as its code point. -/
def writeChar (c : Char) : List Nat := [c.toNat]

/-- Read a character written by writeChar. -/
def readChar : List Nat → Option (Char × List Nat)
  | [] => none
  | n :: rest => some (Char.ofNat n, rest)

/-- Write the elements of a list back to back. -/
def writeListWith (w : α → List Nat) : List α → List Nat
  | [] => []
  | a :: l => w a ++ writeListWith w l

/-- Write a list as a length token followed by its elements. -/
def writeList (w : α → List Nat) (l : List α) : List Nat :=
  writeNat l.length ++ writeListWith w l

/-- Read a known number of elements. -/
def readListWith (r : List Nat → Option (α × List Nat)) : Nat → List Nat → Option (List α × List Nat)
  | 0, s => some ([], s)
  | n + 1, s =>
    match r s with
    | none => none
    | some (a, s1) =>
      match readListWith r n s1 with
      | none => none
      | some (l, s2) => some (a :: l, s2)

/-- Read a list written by writeList. -/
def readList (r : List Nat → Option (α × List Nat)) (s : List Nat) : Option (List α × List Nat) :=
  match readNat s with
  | none => none
  | some (n, s1) => readListWith r n s1

/-- Write a string as the list of its characters. -/
def writeString (s : String) : List Nat :=
  writeList writeChar s.data

/-- Read a string written by writeString. -/
def readString (s : List Nat) : Option (String × List Nat) :=
  match readList readChar s with
  | none => none
  | some (l, s1) => some (String.mk l, s1)

/-- Write a pair with the given component writers. -/
def writePairWith (wa : α → List Nat) (wb : β → List Nat) (p : α × β) : List Nat :=
  wa p.1 ++ wb p.2

/-- Read a pair written by writePairWith. -/
def readPairWith (ra : List Nat → Option (α × List Nat)) (rb : List Nat → Option (β × List Nat))
    (s : List Nat) : Option ((α × β) × List Nat) :=
  match ra s with
  | none => none
  | some (a, s1) =>
    match rb s1 with
    | none => none
    | some (b, s2) => some ((a, b), s2)

/-- Serialize one per-core CPU reading. -/
def writeCpuTimes (c : CpuTimes) : List Nat :=
  writeRat c.busy ++ writeRat c.total

/-- Read a per-core CPU reading. -/
def readCpuTimes (s : List Nat) : Option (CpuTimes × List Nat) :=
  match readRat s with
  | none => none
  | some (b, s1) =>
    match readRat s1 with
    | none => none
    | some (t, s2) => some (CpuTimes.mk b t, s2)

/-- Serialize the RAM counters. -/
def writeVirtualMemory (v : VirtualMemory) : List Nat :=
  writeNat v.total ++ writeRat v.percent

/-- Read the RAM counters. -/
def readVirtualMemory (s : List Nat) : Option (VirtualMemory × List Nat) :=
  match readNat s with
  | none => none
  | some (t, s1) =>
    match readRat s1 with
    | none => none
    | some (p, s2) => some (VirtualMemory.mk t p, s2)

/-- Serialize the swap counters. -/
def writeSwapMemory (v : SwapMemory) : List Nat :=
  writeNat v.total ++ writeRat v.percent

/-- Read the swap counters. -/
def readSwapMemory (s : List Nat) : Option (SwapMemory × List Nat) :=
  match readNat s with
  | none => none
  | some (t, s1) =>
    match readRat s1 with
    | none => none
    | some (p, s2) => some (SwapMemory.mk t p, s2)

/-- Serialize one interface counter record. -/
def writeNetIoCounters (n : NetIoCounters) : List Nat :=
  writeNat n.bytes_recv ++ writeNat n.bytes_sent

/-- Read one interface counter record. -/
def readNetIoCounters (s : List Nat) : Option (NetIoCounters × List Nat) :=
  match readNat s with
  | none => none
  | some (r, s1) =>
    match readNat s1 with
    | none => none
    | some (t, s2) => some (NetIoCounters.mk r t, s2)

/-- Serialize one partition I/O counter record. -/
def writeDiskIoCounters (d : DiskIoCounters) : List Nat :=
  writeNat d.read_bytes ++ writeNat d.write_bytes

/-- Read one partition I/O counter record. -/
def readDiskIoCounters (s : List Nat) : Option (DiskIoCounters × List Nat) :=
  match readNat s with
  | none => none
  | some (r, s1) =>
    match readNat s1 with
    | none => none
    | some (w, s2) => some (DiskIoCounters.mk r w, s2)

/-- Serialize one temperature sensor reading. -/
def writeTemperatureSensor (t : TemperatureSensor) : List Nat :=
  writeString t.label ++ writeRat t.degrees

/-- Read one temperature sensor reading. -/
def readTemperatureSensor (s : List Nat) : Option (TemperatureSensor × List Nat) :=
  match readString s with
  | none => none
  | some (l, s1) =>
    match readRat s1 with
    | none => none
    | some (d, s2) => some (TemperatureSensor.mk l d, s2)

/-- Serialize the load averages. -/
def writeLoadAvg (la : LoadAvg) : List Nat :=
  writeRat la.one ++ writeRat la.five ++ writeRat la.fifteen

/-- Read the load averages. -/
def readLoadAvg (s : List Nat) : Option (LoadAvg × List Nat) :=
  match readRat s with
  | none => none
  | some (a, s1) =>
    match readRat s1 with
    | none => none
    | some (b, s2) =>
      match readRat s2 with
      | none => none
      | some (c, s3) => some (LoadAvg.mk a b c, s3)

/-- Serialize one snapshot, field by field in declaration order. -/
def writeSnapShot (s : SnapShot) : List Nat :=
  writeList writeCpuTimes s.cpus ++
  writeVirtualMemory s.memory ++
  writeSwapMemory s.swap ++
  writeList writeNetIoCounters s.networks ++
  writeList (writePairWith writeString writeDiskIoCounters) s.disks_io ++
  writeList (writePairWith writeString writeRat) s.disks_memory ++
  writeList writeTemperatureSensor s.temps ++
  writeLoadAvg s.load_avgs ++
  writeInt s.time

/-- Read one snapshot. -/
def readSnapShot (s : List Nat) : Option (SnapShot × List Nat) :=
  match readList readCpuTimes s with
  | none => none
  | some (cpus, s1) =>
    match readVirtualMemory s1 with
    | none => none
    | some (memory, s2) =>
      match readSwapMemory s2 with
      | none => none
      | some (swap, s3) =>
        match readList readNetIoCounters s3 with
        | none => none
        | some (networks, s4) =>
          match readList (readPairWith readString readDiskIoCounters) s4 with
          | none => none
          | some (disks_io, s5) =>
            match readList (readPairWith readString readRat) s5 with
            | none => none
            | some (disks_memory, s6) =>
              match readList readTemperatureSensor s6 with
              | none => none
              | some (temps, s7) =>
                match readLoadAvg s7 with
                | none => none
                | some (load_avgs, s8) =>
                  match readInt s8 with
                  | none => none
                  | some (time, s9) =>
                    some (SnapShot.mk cpus memory swap networks disks_io
                      disks_memory temps load_avgs time, s9)

/-- Serialize a whole store: version string then snapshot list. -/
def writeDatabase (db : Database) : List Nat :=
  writeString db.version ++ writeList writeSnapShot db.snapshots

/-- Read one store value from the stream, returning the unread remainder
(the model of ciborium de::from_reader, which consumes exactly one value). -/
def readDatabase (s : List Nat) : Option (Database × List Nat) :=
  match readString s with
  | none => none
  | some (version, s1) =>
    match readList readSnapShot s1 with
    | none => none
    | some (snapshots, s2) => some (Database.mk version snapshots, s2)

/-!
Version handling. The semver crate is external to the repository; the spec says
versions are compared with semantic-version rules, so a version string parses as
three dot-separated numeric components compared lexicographically.
-/

/-- Split a character list at every dot. -/
def splitDots : List Char → List (List Char)
  | [] => [[]]
  | c :: cs =>
    if c = '.' then [] :: splitDots cs
    else
      match splitDots cs with
      | [] => [[c]]
      | g :: gs => (c :: g) :: gs

/-- Decimal digit value of a character, if it is a digit. -/
def decDigit (c : Char) : Option Nat :=
  if 48 ≤ c.toNat ∧ c.toNat ≤ 57 then some (c.toNat - 48) else none

/-- Parse a non-empty all-digit character list as a natural number. -/
def parseNatDigits (ds : List Char) : Option Nat :=
  match ds with
  | [] => none
  | _ =>
    ds.foldl
      (fun acc c =>
        match acc, decDigit c with
        | some n, some d => some (10 * n + d)
        | _, _ => none)
      (some 0)

/-- Modelled from the spec: semver Version::from_str, restricted to the plain
major.minor.patch shape that every version in this system has. -/
def parseVersion (s : String) : Option (Nat × Nat × Nat) :=
  match splitDots s.data with
  | [a, b, c] =>
    match parseNatDigits a, parseNatDigits b, parseNatDigits c with
    | some x, some y, some z => some (x, y, z)
    | _, _, _ => none
  | _ => none

/-- Modelled from the spec: strict semantic-version order on parsed versions,
major first, then minor, then patch. -/
def semverLt (a b : Nat × Nat × Nat) : Bool :=
  if a.1 ≠ b.1 then decide (a.1 < b.1)
  else if a.2.1 ≠ b.2.1 then decide (a.2.1 < b.2.1)
  else decide (a.2.2 < b.2.2)

/-- From Database::default: the empty store, tagged with the running
version (the CARGO_PKG_VERSION constant, passed here as a parameter). -/
def Database.empty_default (currentVersion : String) : Database :=
  Database.mk currentVersion []

/-- From the tail of Database::load_database: parse the running version and the
stored version (both with the question-mark operator, so a parse failure is a
returned error), and if the stored version is strictly greater than the running
one, silently rewrite the in-memory version field to the running version. -/
def reconcile_version (currentVersion : String) (db : Database) : Except DbError Database :=
  match parseVersion currentVersion with
  | none => .error .semVer
  | some cur =>
    match parseVersion db.version with
    | none => .error .semVer
    | some v =>
      if semverLt cur v then .ok (Database.mk currentVersion db.snapshots) else .ok db

/-- From Database::load_database: a zero-byte file yields the default store;
otherwise decode one store value from the stream (trailing tokens ignored);
then reconcile the version field. -/
def Database.load_database (currentVersion : String) (file : List Nat) : Except DbError Database :=
  if file.length = 0 then reconcile_version currentVersion (Database.empty_default currentVersion)
  else
    match readDatabase file with
    | none => .error .cborDeserialize
    | some (db, _) => reconcile_version currentVersion db

/-!
Persistence, at the level of file contents. Database::write_to_file opens the
target with truncate(true), so the previous contents are discarded before the
serializer runs; Database::from_file_with_write opens with read+write+create
(no truncate), loads, then seeks to offset zero, and Database::write_and_close_file
writes the serialization at that cursor without truncating, so bytes of a longer
previous file survive past the end of the new serialization.
-/

/-- Overwrite a stream from offset zero without truncating: the new tokens,
then whatever the old stream had beyond their length. -/
def overwriteFromStart (new old : List Nat) : List Nat :=
  new ++ old.drop new.length

/-- From Database::write_to_file (truncating open): the resulting file contents. -/
def Database.write_to_file_contents (db : Database) (_old : List Nat) : List Nat :=
  writeDatabase db

/-- From Database::write_and_close_file on a handle obtained from
Database::from_file_with_write (non-truncating open, cursor reset to zero):
the resulting file contents. -/
def Database.write_and_close_contents (db : Database) (old : List Nat) : List Nat :=
  overwriteFromStart (writeDatabase db) old

/-!
File-system and lock-sentinel model, for the failure behaviour of
Database::lock, Database::unlock and Database::from_file. The state tracks the
data file at path P (none when absent) and whether the sentinel P.lock exists.
The model is single-process: while one call runs, nothing else creates or
removes the sentinel, so a lock attempt that finds the sentinel present exhausts
its bounded 5 second poll and fails with the timeout error.
-/

/-- State of the two files the store touches. -/
structure FsState where
  data : Option (List Nat)
  lockExists : Bool
deriving DecidableEq

/-- From Database::lock: if the sentinel exists the bounded wait expires with
LockFileTimeout; otherwise the sentinel is created first, and only then is the
data file opened, so an open failure leaves the sentinel behind. With create
false (read-only options) a missing data file is an open failure; with create
true it is created empty. -/
def Database.lock (create : Bool) (fs : FsState) : FsState × Except DbError (List Nat) :=
  if fs.lockExists then (fs, .error .lockFileTimeout)
  else
    match fs.data with
    | some contents => (FsState.mk fs.data true, .ok contents)
    | none =>
      if create then (FsState.mk (some []) true, .ok [])
      else (FsState.mk fs.data true, .error .failedToOpenFile)

/-- From Database::unlock: the sentinel is removed only when the data file
path exists (the source tests the data path, not the sentinel path). -/
def Database.unlock (fs : FsState) : FsState :=
  match fs.data with
  | some _ => FsState.mk fs.data false
  | none => fs

/-- From Database::from_file: lock with read-only options, load, unlock. Every
failure after the lock step propagates with the question-mark operator, so
unlock never runs on those paths and the sentinel file stays on disk. -/
def Database.from_file (currentVersion : String) (fs : FsState) :
    FsState × Except DbError Database :=
  match Database.lock false fs with
  | (fs1, .error e) => (fs1, .error e)
  | (fs1, .ok contents) =>
    match Database.load_database currentVersion contents with
    | .error e => (fs1, .error e)
    | .ok db => (Database.unlock fs1, .ok db)

/-!
Concrete fixtures used by the evaluation theorems below.
-/

/-- A minimal snapshot capturing at time t: no cores, no interfaces, no
partitions, no sensors, all counters zero. -/
def snapAt (t : Int) : SnapShot :=
  SnapShot.mk [] (VirtualMemory.mk 0 0) (SwapMemory.mk 0 0) [] [] [] []
    (LoadAvg.mk 0 0 0) t

/-- A snapshot whose single core reports 2 seconds busy out of 8 total,
captured at time 3. -/
def snapCpu : SnapShot :=
  SnapShot.mk [CpuTimes.mk 2 8] (VirtualMemory.mk 0 0) (SwapMemory.mk 0 0) [] [] [] []
    (LoadAvg.mk 0 0 0) 3

/-- A snapshot whose single partition reports 50 percent capacity used,
captured at time 7. -/
def snapDisk : SnapShot :=
  SnapShot.mk [] (VirtualMemory.mk 0 0) (SwapMemory.mk 0 0) [] [] [("/", 50)] []
    (LoadAvg.mk 0 0 0) 7

/-- Interface counters for a kept interface. -/
def nicA : NetIoCounters := NetIoCounters.mk 100 200

/-- Interface counters for an ignored interface. -/
def nicB : NetIoCounters := NetIoCounters.mk 1 2

/-- Reading back a written natural number consumes exactly its encoding. -/
theorem readNat_write (n : Nat) (rest : List Nat) :
    readNat (writeNat n ++ rest) = some (n, rest) := rfl

/-- Reading back a written integer consumes exactly its encoding. -/
theorem readInt_write (i : Int) (rest : List Nat) :
    readInt (writeInt i ++ rest) = some (i, rest) := by
  by_cases h : i < 0
  · have habs : (i.natAbs : Int) = -i := by omega
    simp [writeInt, readInt, if_pos h, habs]
  · have habs : (i.natAbs : Int) = i := by omega
    simp [writeInt, readInt, if_neg h, habs]

/-- Reading back a written rational consumes exactly its encoding. -/
theorem readRat_write (q : ℚ) (rest : List Nat) :
    readRat (writeRat q ++ rest) = some (q, rest) := by
  simp [writeRat, readRat, List.append_assoc, readInt_write, readNat_write, Rat.num_div_den]

/-- Reading back a written character consumes exactly its encoding. -/
theorem readChar_write (c : Char) (rest : List Nat) :
    readChar (writeChar c ++ rest) = some (c, rest) := by
  simp [writeChar, readChar, Char.ofNat_toNat]

/-- Reading back a written count of elements consumes exactly their encodings,
provided each element reads back. -/
theorem readListWith_write (r : List Nat → Option (α × List Nat)) (w : α → List Nat)
    (h : ∀ a rest, r (w a ++ rest) = some (a, rest)) (l : List α) (rest : List Nat) :
    readListWith r l.length (writeListWith w l ++ rest) = some (l, rest) := by
  induction l generalizing rest with
  | nil => simp [writeListWith, readListWith]
  | cons a l ih => simp [writeListWith, readListWith, List.append_assoc, h, ih]

/-- Reading back a written list consumes exactly its encoding. -/
theorem readList_write (r : List Nat → Option (α × List Nat)) (w : α → List Nat)
    (h : ∀ a rest, r (w a ++ rest) = some (a, rest)) (l : List α) (rest : List Nat) :
    readList r (writeList w l ++ rest) = some (l, rest) := by
  simp [writeList, readList, List.append_assoc, readNat_write, readListWith_write r w h]

/-- Reading back a written string consumes exactly its encoding. -/
theorem readString_write (s : String) (rest : List Nat) :
    readString (writeString s ++ rest) = some (s, rest) := by
  simp [writeString, readString, readList_write readChar writeChar readChar_write]

/-- Reading back a written pair consumes exactly its encoding. -/
theorem readPairWith_write (ra : List Nat → Option (α × List Nat)) (wa : α → List Nat)
    (rb : List Nat → Option (β × List Nat)) (wb : β → List Nat)
    (ha : ∀ a rest, ra (wa a ++ rest) = some (a, rest))
    (hb : ∀ b rest, rb (wb b ++ rest) = some (b, rest)) (p : α × β) (rest : List Nat) :
    readPairWith ra rb (writePairWith wa wb p ++ rest) = some (p, rest) := by
  simp [writePairWith, readPairWith, List.append_assoc, ha, hb]

/-- Reading back a written CPU reading consumes exactly its encoding. -/
theorem readCpuTimes_write (c : CpuTimes) (rest : List Nat) :
    readCpuTimes (writeCpuTimes c ++ rest) = some (c, rest) := by
  simp [writeCpuTimes, readCpuTimes, List.append_assoc, readRat_write]

/-- Reading back written RAM counters consumes exactly their encoding. -/
theorem readVirtualMemory_write (v : VirtualMemory) (rest : List Nat) :
    readVirtualMemory (writeVirtualMemory v ++ rest) = some (v, rest) := by
  simp [writeVirtualMemory, readVirtualMemory, List.append_assoc, readNat_write, readRat_write]

/-- Reading back written swap counters consumes exactly their encoding. -/
theorem readSwapMemory_write (v : SwapMemory) (rest : List Nat) :
    readSwapMemory (writeSwapMemory v ++ rest) = some (v, rest) := by
  simp [writeSwapMemory, readSwapMemory, List.append_assoc, readNat_write, readRat_write]

/-- Reading back written interface counters consumes exactly their encoding. -/
theorem readNetIoCounters_write (n : NetIoCounters) (rest : List Nat) :
    readNetIoCounters (writeNetIoCounters n ++ rest) = some (n, rest) := by
  simp [writeNetIoCounters, readNetIoCounters, List.append_assoc, readNat_write]

/-- Reading back written partition counters consumes exactly their encoding. -/
theorem readDiskIoCounters_write (d : DiskIoCounters) (rest : List Nat) :
    readDiskIoCounters (writeDiskIoCounters d ++ rest) = some (d, rest) := by
  simp [writeDiskIoCounters, readDiskIoCounters, List.append_assoc, readNat_write]

/-- Reading back a written sensor reading consumes exactly its encoding. -/
theorem readTemperatureSensor_write (t : TemperatureSensor) (rest : List Nat) :
    readTemperatureSensor (writeTemperatureSensor t ++ rest) = some (t, rest) := by
  simp [writeTemperatureSensor, readTemperatureSensor, List.append_assoc,
    readString_write, readRat_write]

/-- Reading back written load averages consumes exactly their encoding. -/
theorem readLoadAvg_write (la : LoadAvg) (rest : List Nat) :
    readLoadAvg (writeLoadAvg la ++ rest) = some (la, rest) := by
  simp [writeLoadAvg, readLoadAvg, List.append_assoc, readRat_write]

/-- Reading back a written snapshot consumes exactly its encoding. -/
theorem readSnapShot_write (s : SnapShot) (rest : List Nat) :
    readSnapShot (writeSnapShot s ++ rest) = some (s, rest) := by
  simp [writeSnapShot, readSnapShot, List.append_assoc,
    readList_write readCpuTimes writeCpuTimes readCpuTimes_write,
    readVirtualMemory_write, readSwapMemory_write,
    readList_write readNetIoCounters writeNetIoCounters readNetIoCounters_write,
    readList_write (readPairWith readString readDiskIoCounters)
      (writePairWith writeString writeDiskIoCounters)
      (readPairWith_write readString writeString readDiskIoCounters writeDiskIoCounters
        readString_write readDiskIoCounters_write),
    readList_write (readPairWith readString readRat) (writePairWith writeString writeRat)
      (readPairWith_write readString writeString readRat writeRat
        readString_write readRat_write),
    readList_write readTemperatureSensor writeTemperatureSensor readTemperatureSensor_write,
    readLoadAvg_write, readInt_write]

/-- Reading back a written store consumes exactly its encoding and leaves any
trailing tokens unread. -/
theorem readDatabase_write (db : Database) (rest : List Nat) :
    readDatabase (writeDatabase db ++ rest) = some (db, rest) := by
  simp [writeDatabase, readDatabase, List.append_assoc, readString_write,
    readList_write readSnapShot writeSnapShot readSnapShot_write]

/-- A serialized store is never the empty stream (its first token is the
length of the version string). -/
theorem writeDatabase_ne_nil (db : Database) : writeDatabase db ≠ [] := by
  simp [writeDatabase, writeString, writeList, writeNat]


/-- Loading a freshly serialized store decodes it back exactly and hands it to
the version reconciliation step. -/
theorem load_database_write (cs : String) (db : Database) :
    Database.load_database cs (writeDatabase db) = reconcile_version cs db := by
  have h1 : readDatabase (writeDatabase db) = some (db, []) := by
    simpa using readDatabase_write db []
  have h2 : ¬ (writeDatabase db).length = 0 := by
    intro h
    exact writeDatabase_ne_nil db (List.length_eq_zero.mp h)
  simp [Database.load_database, h2, h1]

/-- A version never compares strictly below itself. -/
theorem semverLt_self (c : Nat × Nat × Nat) : semverLt c c = false := by
  simp [semverLt]

/-- Claim C3 (counterexample): with now = 86400000 ms and days = 1 the cutoff
is exactly 0, and a snapshot whose timestamp is exactly 0 — exactly at the
cutoff boundary — IS removed by remove_older, contradicting the claim that a
snapshot at the boundary is never removed (the source keeps time > cutoff, so
it drops the boundary). -/
theorem claim_c3_counterexample :
    ((86400000 : Int) - 1 * millisPerDay = 0) ∧
    (snapAt 0).time = 0 ∧
    Database.remove_older 86400000 1 (Database.mk "0.1.0" [snapAt 0]) =
      .ok (Database.mk "0.1.0" []) := by
  decide

/-- Claim C3 (amended): whenever the cutoff now - days is representable,
remove_older succeeds and keeps exactly the snapshots whose timestamp is
STRICTLY LATER than the cutoff: a snapshot at or before the cutoff is removed,
a snapshot strictly after it is kept, and the kept snapshots form a sublist of
the original sequence, so their relative order is unchanged. -/
theorem claim_c3_amended (now days ms cutoff : Int) (db : Database)
    (h1 : chronoDurationDaysMs days = some ms)
    (h2 : checked_sub_signed now ms = some cutoff) :
    ∃ kept,
      Database.remove_older now days db = .ok (Database.mk db.version kept) ∧
      kept.Sublist db.snapshots ∧
      (∀ s, s ∈ kept ↔ s ∈ db.snapshots ∧ cutoff < s.time) := by
  refine ⟨db.snapshots.filter (fun s => decide (cutoff < s.time)), ?_, ?_, ?_⟩
  · simp [Database.remove_older, h1, h2]
  · exact List.filter_sublist db.snapshots
  · intro s
    simp [List.mem_filter]

/-- Claim C3 (witness): the amended statement at now = 86400000 ms, days = 1,
on a store holding snapshots at times 0 and 1. -/
theorem claim_c3_witness :
    ∃ kept,
      Database.remove_older 86400000 1 (Database.mk "0.1.0" [snapAt 0, snapAt 1]) =
        .ok (Database.mk (Database.mk "0.1.0" [snapAt 0, snapAt 1]).version kept) ∧
      kept.Sublist (Database.mk "0.1.0" [snapAt 0, snapAt 1]).snapshots ∧
      (∀ s, s ∈ kept ↔ s ∈ (Database.mk "0.1.0" [snapAt 0, snapAt 1]).snapshots ∧ 0 < s.time) :=
  claim_c3_amended 86400000 1 86400000 0 (Database.mk "0.1.0" [snapAt 0, snapAt 1])
    (by decide) (by decide)

/-- Claim C4 (code bug evaluation): with ignored set containing exactly lo and
an OS interface map holding eth0 and lo, the filter inside SnapShot::new of
src/services/metrics/src/snapshot.rs keeps exactly the counters of lo — the
ignored interface — and drops eth0, the inverse of the claimed behaviour; the
filter of src/lib/metrics/src/snapshot.rs implements the claimed behaviour,
keeping eth0 and excluding lo. -/
theorem claim_c4_filter_inversion :
    collect_networks_services ["lo"] [("eth0", nicA), ("lo", nicB)] = [nicB] ∧
    collect_networks ["lo"] [("eth0", nicA), ("lo", nicB)] = [nicA] := by
  decide

/-- Claim C7: remove_older is idempotent. Applying it a second time with the
same days value and the same now instant (including through the mutable-self
wrapper, which leaves the store untouched on error) returns the store produced
by the first application unchanged. -/
theorem claim_c7 (now days : Int) (db : Database) :
    (Database.remove_older_run now days (Database.remove_older_run now days db).2).2 =
      (Database.remove_older_run now days db).2 := by
  cases h1 : chronoDurationDaysMs days with
  | none => simp [Database.remove_older_run, Database.remove_older, h1]
  | some ms =>
    cases h2 : checked_sub_signed now ms with
    | none => simp [Database.remove_older_run, Database.remove_older, h1, h2]
    | some cutoff =>
      simp [Database.remove_older_run, Database.remove_older, h1, h2, List.filter_filter]

/-- Claim C8 (counterexample): at days = 200000000000 the subtraction
now - days is far outside the representable DateTime window (the model of
checked_sub_signed returns none on it), yet remove_older does not return the
DateOverflow error: chrono Duration::days panics first, because the duration
exceeds the Duration range, so the call aborts instead of returning the error
the claim requires. -/
theorem claim_c8_counterexample :
    checked_sub_signed 1760000000000 (200000000000 * millisPerDay) = none ∧
    Database.remove_older 1760000000000 200000000000 (Database.mk "0.1.0" []) =
      .error .durationDaysPanic ∧
    DbError.durationDaysPanic ≠ DbError.oldestDateOverflow := by
  decide

/-- Claim C8 (amended): for every days value inside the chrono Duration range
(so that Duration::days does not panic), remove_older returns the DateOverflow
error exactly when the cutoff now - days is not representable, and in that case
the snapshot sequence is left unchanged; when the cutoff is representable the
DateOverflow error is never returned. -/
theorem claim_c8_amended (now days ms : Int) (db : Database)
    (hms : chronoDurationDaysMs days = some ms) :
    (checked_sub_signed now ms = none →
      Database.remove_older now days db = .error .oldestDateOverflow ∧
      (Database.remove_older_run now days db).2 = db) ∧
    (∀ cutoff, checked_sub_signed now ms = some cutoff →
      Database.remove_older now days db ≠ .error .oldestDateOverflow) := by
  constructor
  · intro hnone
    constructor
    · simp [Database.remove_older, hms, hnone]
    · simp [Database.remove_older_run, Database.remove_older, hms, hnone]
  · intro cutoff hsome
    simp [Database.remove_older, hms, hsome]

/-- Claim C8 (witness): the amended statement at now = 0 and days = 200000000,
a value inside the Duration range whose cutoff is not representable. -/
theorem claim_c8_witness :
    (checked_sub_signed 0 17280000000000000 = none →
      Database.remove_older 0 200000000 (Database.mk "0.1.0" [snapAt 0]) =
        .error .oldestDateOverflow ∧
      (Database.remove_older_run 0 200000000 (Database.mk "0.1.0" [snapAt 0])).2 =
        Database.mk "0.1.0" [snapAt 0]) ∧
    (∀ cutoff, checked_sub_signed 0 17280000000000000 = some cutoff →
      Database.remove_older 0 200000000 (Database.mk "0.1.0" [snapAt 0]) ≠
        .error .oldestDateOverflow) :=
  claim_c8_amended 0 200000000 17280000000000000 (Database.mk "0.1.0" [snapAt 0]) (by decide)

/-- Claim C1 (counterexample): writing a one-snapshot store through
write_and_close_file over a file that previously held the serialization of a
two-snapshot store (as produced by write_to_file) does NOT replace the previous
file contents completely: the open used no truncation, so the tail of the
longer previous serialization survives past the end of the new one. -/
theorem claim_c1_counterexample :
    Database.write_and_close_contents (Database.mk "0.1.0" [snapAt 0])
        (Database.write_to_file_contents (Database.mk "0.1.0" [snapAt 0, snapAt 0]) []) ≠
      writeDatabase (Database.mk "0.1.0" [snapAt 0]) := by
  decide

/-- Claim C1 (amended): write_to_file truncates, so it replaces the previous
contents completely with the serialization of the entire store; write_and_close_file
on a handle from from_file_with_write overwrites from offset zero WITHOUT
truncating, so when the new serialization is shorter the tail of the previous
contents survives after it; in both cases the resulting non-empty file still
deserializes to exactly the written store, because the decoder reads a single
self-delimiting value and ignores trailing bytes. -/
theorem claim_c1_amended (db : Database) (old : List Nat) :
    Database.write_to_file_contents db old = writeDatabase db ∧
    readDatabase (Database.write_to_file_contents db old) = some (db, []) ∧
    readDatabase (Database.write_and_close_contents db old) =
      some (db, old.drop (writeDatabase db).length) := by
  refine ⟨rfl, ?_, ?_⟩
  · simpa [Database.write_to_file_contents] using readDatabase_write db []
  · simp [Database.write_and_close_contents, overwriteFromStart, readDatabase_write]

/-- Claim C2 (counterexample): a store whose version 0.0.1 is OLDER than the
running version 0.1.0 round-trips with its version unchanged: load only
rewrites the version field when the stored version is strictly newer, so the
loaded version does not equal the running version. -/
theorem claim_c2_counterexample :
    Database.load_database "0.1.0" (writeDatabase (Database.mk "0.0.1" [snapAt 0])) =
      .ok (Database.mk "0.0.1" [snapAt 0]) ∧
    "0.0.1" ≠ "0.1.0" := by
  constructor
  · rw [load_database_write]
    decide
  · decide

/-- Claim C2 (amended): persisting any store with parseable versions and then
loading the file reproduces the snapshot sequence exactly; the resulting
version equals the running version only when the stored version was strictly
newer, and is otherwise left as the stored version. -/
theorem claim_c2_amended (db : Database) (cs : String) (c v : Nat × Nat × Nat)
    (hc : parseVersion cs = some c) (hv : parseVersion db.version = some v)
    (hne : db.snapshots ≠ []) :
    Database.load_database cs (writeDatabase db) =
      .ok (Database.mk (if semverLt c v then cs else db.version) db.snapshots) := by
  obtain ⟨ver, snaps⟩ := db
  rw [load_database_write]
  simp only [reconcile_version, hc] at hv ⊢
  simp only [hv]
  by_cases h : semverLt c v
  · simp [h]
  · simp [h]

/-- Claim C2 (witness): the amended statement on a one-snapshot store with
stored version 0.0.1 under running version 0.1.0. -/
theorem claim_c2_witness :
    Database.load_database "0.1.0" (writeDatabase (Database.mk "0.0.1" [snapAt 0])) =
      .ok (Database.mk (if semverLt (0, 1, 0) (0, 0, 1) then "0.1.0" else "0.0.1")
        [snapAt 0]) :=
  claim_c2_amended (Database.mk "0.0.1" [snapAt 0]) "0.1.0" (0, 1, 0) (0, 0, 1)
    (by decide) (by decide) (by decide)

/-- Sum of the second components, expressed through the fold the source uses. -/
theorem foldl_add_snd (l : List (String × ℚ)) (a : ℚ) :
    l.foldl (fun sum kv => sum + kv.2) a = a + (l.map Prod.snd).sum := by
  induction l generalizing a with
  | nil => simp
  | cons x l ih => simp [ih, add_assoc]

/-- Claim C5 (counterexample): for a store holding one snapshot whose single
partition reports 50 percent used, the derived disk-capacity series value is
not 50 (the sum of the per-partition percents, as the claim states) but
50 / 1048576: the source applies its bytes-to-MiB conversion to the percent
sum before pairing it with the timestamp. -/
theorem claim_c5_counterexample :
    Database.get_disk_memory_usage (Database.mk "0.1.0" [snapDisk]) ≠ [(50, 7)] ∧
    Database.get_disk_memory_usage (Database.mk "0.1.0" [snapDisk]) = [(50 / 1048576, 7)] := by
  constructor
  · simp only [Database.get_disk_memory_usage, SnapShot.get_disks_size_usage, snapDisk,
      List.map_cons, List.map_nil, List.foldl_cons, List.foldl_nil]
    intro h
    rw [List.cons.injEq, Prod.mk.injEq] at h
    have := h.1.1
    norm_num at this
  · simp only [Database.get_disk_memory_usage, SnapShot.get_disks_size_usage, snapDisk,
      List.map_cons, List.map_nil, List.foldl_cons, List.foldl_nil]
    norm_num

/-- Claim C5 (amended): for every store, the disk-capacity-used series pairs
each snapshot timestamp, in sequence order, with the SUM OF THE PER-PARTITION
USED-PERCENT VALUES DIVIDED BY 1024 TWICE — the source feeds the percent sum
through its bytes-to-MiB conversion — rather than the plain percent sum the
claim states. -/
theorem claim_c5_amended (db : Database) :
    db.get_disk_memory_usage = db.snapshots.map (fun s =>
      ((s.disks_memory.map Prod.snd).sum / 1024 / 1024, s.time)) := by
  unfold Database.get_disk_memory_usage SnapShot.get_disks_size_usage
  simp [foldl_add_snd]

/-- Claim C6: loading a zero-byte file yields the empty default store — the
running version (whenever it parses, as the compiled-in crate version always
does) and an empty snapshot sequence. -/
theorem claim_c6 (cs : String) (c : Nat × Nat × Nat) (hc : parseVersion cs = some c) :
    Database.load_database cs [] = .ok (Database.empty_default cs) := by
  simp [Database.load_database, reconcile_version, Database.empty_default, hc, semverLt_self]

/-- Claim C6 (witness): loading the empty stream under running version 0.1.0. -/
theorem claim_c6_witness :
    Database.load_database "0.1.0" [] = .ok (Database.empty_default "0.1.0") :=
  claim_c6 "0.1.0" (0, 1, 0) (by decide)

/-- The per-snapshot CPU time fold equals the pair of per-core sums. -/
theorem get_cpu_time_eq (s : SnapShot) :
    s.get_cpu_time = ((s.cpus.map CpuTimes.busy).sum, (s.cpus.map CpuTimes.total).sum) := by
  unfold SnapShot.get_cpu_time
  have h : ∀ (l : List CpuTimes) (a b : ℚ),
      l.foldl (fun p cpu => (p.1 + cpu.busy, p.2 + cpu.total)) (a, b) =
        (a + (l.map CpuTimes.busy).sum, b + (l.map CpuTimes.total).sum) := by
    intro l
    induction l with
    | nil => intro a b; simp
    | cons x l ih => intro a b; simp [ih, add_assoc]
  simpa using h s.cpus 0 0

/-- Claim C9: for every store, the CPU-usage series pairs each snapshot
timestamp, in sequence order, with the sum of per-core busy time divided by
the sum of per-core total time, times 100; in particular one core with busy
time 2 out of total time 8 yields 25 percent. -/
theorem claim_c9 :
    (∀ db : Database, db.get_cpu_usage = db.snapshots.map (fun s =>
      ((s.cpus.map CpuTimes.busy).sum / (s.cpus.map CpuTimes.total).sum * 100, s.time))) ∧
    Database.get_cpu_usage (Database.mk "0.1.0" [snapCpu]) = [(25, 3)] := by
  have hgen : ∀ db : Database, db.get_cpu_usage = db.snapshots.map (fun s =>
      ((s.cpus.map CpuTimes.busy).sum / (s.cpus.map CpuTimes.total).sum * 100, s.time)) := by
    intro db
    unfold Database.get_cpu_usage
    simp [List.map_map, Function.comp, get_cpu_time_eq]
  refine ⟨hgen, ?_⟩
  rw [hgen]
  simp only [snapCpu, List.map_cons, List.map_nil, List.sum_cons, List.sum_nil]
  norm_num

/-- Claim C10: starting from a state with no sentinel, if from_file fails — the
data file is absent (read-only open does not create it) or its contents do not
load — the error is returned with the sentinel still on disk, and from then on
every lock acquisition for that path, with or without create, and every further
from_file, fails with the lock timeout, until the sentinel is removed
externally (nothing inside the model removes it). -/
theorem claim_c10 (cs : String) (fs : FsState) (h : fs.lockExists = false) (e : DbError)
    (he : (Database.from_file cs fs).2 = .error e) :
    (Database.from_file cs fs).1.lockExists = true ∧
    (∀ create, (Database.lock create (Database.from_file cs fs).1).2 =
      .error .lockFileTimeout) ∧
    (Database.from_file cs (Database.from_file cs fs).1).2 = .error .lockFileTimeout := by
  cases hd : fs.data with
  | none =>
    refine ⟨?_, ?_, ?_⟩
    · simp [Database.from_file, Database.lock, h, hd]
    · intro create
      simp [Database.from_file, Database.lock, h, hd]
    · simp [Database.from_file, Database.lock, h, hd]
  | some contents =>
    cases hl : Database.load_database cs contents with
    | error e2 =>
      refine ⟨?_, ?_, ?_⟩
      · simp [Database.from_file, Database.lock, h, hd, hl]
      · intro create
        simp [Database.from_file, Database.lock, h, hd, hl]
      · simp [Database.from_file, Database.lock, h, hd, hl]
    | ok db =>
      exfalso
      simp [Database.from_file, Database.lock, Database.unlock, h, hd, hl] at he

/-- Claim C10 (witness): a present data file holding one undecodable token,
no sentinel: from_file fails with the deserialization error and leaves the
sentinel, and the follow-up acquisitions time out. -/
theorem claim_c10_witness :
    (Database.from_file "0.1.0" (FsState.mk (some [99]) false)).1.lockExists = true ∧
    (∀ create, (Database.lock create
      (Database.from_file "0.1.0" (FsState.mk (some [99]) false)).1).2 =
      .error .lockFileTimeout) ∧
    (Database.from_file "0.1.0"
      (Database.from_file "0.1.0" (FsState.mk (some [99]) false)).1).2 =
      .error .lockFileTimeout :=
  claim_c10 "0.1.0" (FsState.mk (some [99]) false) rfl DbError.cborDeserialize (by decide)

end Sysmet
